import Mathlib

/-!
Verification of the Case Tutoring Engine of the Echo repository
(src/core/tutor.py, src/cases/router.py, src/cases/models.py).

The Python code is shallowly embedded: learner messages are Lean strings,
Python string operations (lower, strip, substring membership) are modelled
character-by-character on lists of characters, the mutable CaseState object
becomes a Lean structure threaded through pure update functions, and the
external language-model call is an oracle value at the boundary (an
Option String for turn generation; for debrief generation a ModelReply
carrying the raw text together with the outcome of json.loads on the
cleaned text, since the spec treats the model as an opaque collaborator).
-/

namespace Echo

/-! ## Character-level string primitives

Python string operators used by tutor.py: str.lower, str.strip and the
substring test (the in operator). They are modelled on List Char. The
inputs relevant to the engine are ASCII, where Char.toLower agrees with
Python str.lower and Char.isWhitespace with str.strip. -/

/-- Lowercase every character, modelling Python str.lower on ASCII text. -/
def lowerL (l : List Char) : List Char := l.map Char.toLower

/-- Strip leading and trailing whitespace, modelling Python str.strip. -/
def trimL (l : List Char) : List Char :=
  ((l.dropWhile Char.isWhitespace).reverse.dropWhile Char.isWhitespace).reverse

/-- Test whether pat occurs at the beginning of hay. -/
def isPrefixL : List Char → List Char → Bool
  | [], _ => true
  | _ :: _, [] => false
  | a :: as, b :: bs => a == b && isPrefixL as bs

/-- Test whether pat occurs as a contiguous substring of hay, modelling the
Python expression pat in hay on strings. -/
def containsL (pat : List Char) : List Char → Bool
  | [] => isPrefixL pat []
  | h :: t => isPrefixL pat (h :: t) || containsL pat t

/-! ## Data model (src/cases/models.py) -/

/-- VisitType enumeration from src/cases/models.py. -/
inductive VisitType where
  | sick
  | well_child
deriving DecidableEq, Repr

/-- CasePhase enumeration from src/cases/models.py: shared, sick-visit and
well-child phases. -/
inductive CasePhase where
  | intro
  | exam
  | debrief
  | complete
  | history
  | assessment
  | plan
  | growth_review
  | developmental_screening
  | anticipatory_guidance
  | immunizations
  | parent_questions
deriving DecidableEq, Repr

/-- One entry of CaseState.conversation: a dict with role and content keys. -/
structure Turn where
  role : String
  content : String
deriving DecidableEq, Repr

/-- CaseState from src/cases/models.py, restricted to the fields read or
written by the tutoring engine and the case router: phase, visit type, the
well-child growth_reviewed flag, the hint counter, extracted teaching
moments and the conversation log. The remaining fields (patient, discovery
lists, timing) are never read by the phase machine, the stuck detector or
the failure paths under verification. -/
structure CaseState where
  phase : CasePhase
  visit_type : VisitType
  growth_reviewed : Bool
  hints_given : Nat
  teaching_moments : List String
  conversation : List Turn
deriving DecidableEq, Repr

/-! ## Stuck detection (tutor.py, Tutor._detect_stuck) -/

/-- Confusion vocabulary stuck_phrases from Tutor._detect_stuck, verbatim
and in source order. -/
def stuck_phrases : List String :=
  ["i don\x27t know",
   "i\x27m not sure",
   "not sure",
   "what should i",
   "what do i",
   "help",
   "stuck",
   "confused",
   "no idea",
   "can you help",
   "i\x27m lost",
   "what now",
   "um",
   "uh",
   "?"]

/-- The normalised message msg_lower of _detect_stuck: message.lower().strip(). -/
def msgNorm (message : String) : List Char := trimL (lowerL message.toList)

/-- First rule of _detect_stuck: the trimmed lowered message is shorter than
10 characters. -/
def lengthRule (m : List Char) : Bool := m.length < 10

/-- Second rule of _detect_stuck: some entry of stuck_phrases occurs in the
message as a substring (the Python test phrase in msg_lower). -/
def phraseRule (m : List Char) : Bool :=
  stuck_phrases.any fun p => containsL p.toList m

/-- Third rule of _detect_stuck: over the last 6 conversation turns, the
user-authored turns number at least 2 and their mean length is below 20.
The Python float comparison sum/count < 20 is expressed exactly as
sum < 20 * count. -/
def shortAvgRule (conversation : List Turn) : Bool :=
  let recent := ((conversation.drop (conversation.length - 6)).filter
    (fun t => t.role == "user")).map (fun t => t.content)
  if recent.length ≥ 2 then
    decide (recent.foldl (fun a m => a + m.length) 0 < 20 * recent.length)
  else false

/-- Tutor._detect_stuck: the three rules combined first-match-wins, which
for pure Boolean rules is their disjunction in source order. -/
def detect_stuck (message : String) (case_state : CaseState) : Bool :=
  let m := msgNorm message
  lengthRule m || phraseRule m || shortAvgRule case_state.conversation

/-! ## Phase update (tutor.py, Tutor._update_case_phase and
Tutor._update_well_child_phase)

Each trigger vocabulary below is copied verbatim, in source order, from the
corresponding any(word in msg_lower for word in [...]) test. -/

/-- Sick-visit trigger vocabulary for intro to history. -/
def sickHistoryWords : List String :=
  ["when", "how long", "fever", "pain", "eating", "sleeping", "happened"]

/-- Sick-visit trigger vocabulary for history to exam. -/
def sickExamWords : List String :=
  ["examine", "look at", "check", "ears", "throat", "lungs", "heart", "belly"]

/-- Sick-visit trigger vocabulary for exam to assessment. -/
def sickAssessmentWords : List String :=
  ["think", "diagnosis", "differential", "could be", "looks like", "probably"]

/-- Sick-visit trigger vocabulary for assessment to plan. -/
def sickPlanWords : List String :=
  ["prescribe", "give", "recommend", "treat", "plan", "antibiotic", "medicine"]

/-- Well-child trigger vocabulary for intro to growth_review. -/
def wcGrowthWords : List String :=
  ["growth", "weight", "percentile", "chart", "gaining", "length", "head circumference"]

/-- Well-child trigger vocabulary for intro to developmental_screening. -/
def wcIntroDevWords : List String :=
  ["milestone", "development", "rolling", "sitting", "walking", "talking", "words"]

/-- Well-child trigger vocabulary for growth_review to developmental_screening. -/
def wcDevWords : List String :=
  ["milestone", "development", "rolling", "sitting", "walking", "talking", "babbl",
   "words", "screen"]

/-- Well-child trigger vocabulary for developmental_screening to exam. -/
def wcExamWords : List String :=
  ["examine", "look at", "check", "exam", "heart", "ears", "hips", "lungs", "belly",
   "reflex"]

/-- Well-child trigger vocabulary for exam to anticipatory_guidance. -/
def wcGuidanceWords : List String :=
  ["safety", "sleep", "feeding", "nutrition", "car seat", "tummy time", "screen time",
   "guidance", "counsel", "anticipatory"]

/-- Well-child trigger vocabulary for anticipatory_guidance to immunizations. -/
def wcImmunizationWords : List String :=
  ["vaccine", "immuniz", "shot", "dtap", "mmr", "pcv", "hep", "flu", "schedule"]

/-- Well-child trigger vocabulary for immunizations to parent_questions. -/
def wcWrapUpWords : List String :=
  ["question", "concern", "anything else", "wrap up", "done", "follow up"]

/-- The test any(word in msg_lower for word in words) used by both phase
update functions. -/
def anyWordIn (words : List String) (m : List Char) : Bool :=
  words.any fun w => containsL w.toList m

/-- Tutor._update_well_child_phase: advance a well-child case through its
phases from the lowered learner message. Only the branch matching the
current phase is examined; growth_reviewed is set exactly on the
growth_review to developmental_screening transition. -/
def update_well_child_phase (message : String) (case_state : CaseState) : CaseState :=
  let m := lowerL message.toList
  match case_state.phase with
  | .intro =>
      if anyWordIn wcGrowthWords m then
        { case_state with phase := .growth_review }
      else if anyWordIn wcIntroDevWords m then
        { case_state with phase := .developmental_screening }
      else case_state
  | .growth_review =>
      if anyWordIn wcDevWords m then
        { case_state with phase := .developmental_screening, growth_reviewed := true }
      else case_state
  | .developmental_screening =>
      if anyWordIn wcExamWords m then { case_state with phase := .exam } else case_state
  | .exam =>
      if anyWordIn wcGuidanceWords m then
        { case_state with phase := .anticipatory_guidance }
      else case_state
  | .anticipatory_guidance =>
      if anyWordIn wcImmunizationWords m then
        { case_state with phase := .immunizations }
      else case_state
  | .immunizations =>
      if anyWordIn wcWrapUpWords m then
        { case_state with phase := .parent_questions }
      else case_state
  | _ => case_state

/-- Tutor._update_case_phase: dispatch well-child sessions to
update_well_child_phase, otherwise advance the sick-visit track from the
lowered learner message, only ever from the current phase. -/
def update_case_phase (message : String) (case_state : CaseState) : CaseState :=
  if case_state.visit_type = .well_child then
    update_well_child_phase message case_state
  else
    let m := lowerL message.toList
    match case_state.phase with
    | .intro =>
        if anyWordIn sickHistoryWords m then { case_state with phase := .history }
        else case_state
    | .history =>
        if anyWordIn sickExamWords m then { case_state with phase := .exam }
        else case_state
    | .exam =>
        if anyWordIn sickAssessmentWords m then { case_state with phase := .assessment }
        else case_state
    | .assessment =>
        if anyWordIn sickPlanWords m then { case_state with phase := .plan }
        else case_state
    | _ => case_state

/-! ## Teaching-moment extraction (tutor.py, process_case_message step 5)

The Python code tests whether the marker [TEACHING: occurs in the response
text, extracts the first regex match of the pattern backslash-bracket
TEACHING colon (.*?) backslash-bracket (non-greedy, and dot does not cross
a newline), appends the stripped capture to teaching_moments, and deletes
every non-overlapping match of the same pattern from the visible text. -/

/-- The literal opening marker of a teaching annotation. -/
def teachingTag : List Char := ("[TEACHING:").toList

/-- Scan for the closing bracket of a teaching annotation: return the
capture body and the remainder after the bracket, or none when a newline or
the end of text arrives first (the regex dot does not match a newline). -/
def grabSplit : List Char → Option (List Char × List Char)
  | [] => none
  | c :: t =>
      if c == ']' then some ([], t)
      else if c == '\n' then none
      else match grabSplit t with
        | some (b, r) => some (c :: b, r)
        | none => none

/-- Consuming the closing bracket makes the remainder strictly shorter. -/
theorem grabSplit_length : ∀ (l b r : List Char), grabSplit l = some (b, r) →
    r.length < l.length := by
  intro l
  induction l with
  | nil => intro b r h; simp [grabSplit] at h
  | cons c t ih =>
      intro b r h
      simp only [grabSplit] at h
      by_cases hc : c == ']'
      · simp [hc] at h
        simp [← h.2]
      · by_cases hn : c == '\n'
        · simp [hc, hn] at h
        · simp only [hc, hn, if_neg, Bool.false_eq_true, if_false] at h
          cases hg : grabSplit t with
          | none => rw [hg] at h; simp at h
          | some p =>
              rw [hg] at h
              cases p with
              | mk b0 r0 =>
                  simp at h
                  have := ih b0 r0 hg
                  simp [← h.2]
                  omega

/-- First match of the teaching-annotation pattern: at each position where
the opening marker is a prefix, try to close it before a newline; on
failure keep scanning, mirroring the regex engine. -/
def teachingSearch : List Char → Option (List Char)
  | [] => none
  | h :: t =>
      if isPrefixL teachingTag (h :: t) then
        match grabSplit (List.drop teachingTag.length (h :: t)) with
        | some (b, _) => some b
        | none => teachingSearch t
      else teachingSearch t

/-- Deletion of every non-overlapping match of the teaching-annotation
pattern, mirroring re.sub with an empty replacement. -/
def teachingRemove (l : List Char) : List Char :=
  match l with
  | [] => []
  | h :: t =>
      if isPrefixL teachingTag (h :: t) then
        match hm : grabSplit (List.drop teachingTag.length (h :: t)) with
        | some (_, r) => teachingRemove r
        | none => h :: teachingRemove t
      else h :: teachingRemove t
termination_by l.length
decreasing_by
  · have h1 := grabSplit_length _ _ _ hm
    have h2 : (List.drop teachingTag.length (h :: t)).length ≤ (h :: t).length := by
      simp [List.length_drop]
    simp only [List.length_cons] at *
    omega
  · simp
  · simp

/-! ## Turn protocol (tutor.py, Tutor.process_case_message and
src/cases/router.py, send_message)

The external model call is the oracle argument: some text models a
successful anthropic response, none models a timeout or transport error
raised at the call, which in the Python code propagates as an exception.
Mutations of the request-local CaseState object before the call never
escape a failing request (the handler returns no response and reaches no
persistence write), so the failure branch carries no state. -/

/-- Failure of the external model call (timeout, transport error). -/
inductive GenFailure where
  | generationFailure
deriving DecidableEq, Repr

/-- The four-tuple returned by Tutor.process_case_message. -/
structure TurnResult where
  response : String
  state : CaseState
  teaching_moment : Option String
  hint_offered : Bool
deriving DecidableEq, Repr

/-- Tutor.process_case_message: stuck detection, phase update, hint-counter
increment, model call, teaching-moment extraction, in source order. On
model failure the exception propagates before any result is produced. -/
def process_case_message (message : String) (case_state : CaseState)
    (model : Option String) : Except GenFailure TurnResult :=
  let is_stuck := detect_stuck message case_state
  let updated0 := update_case_phase message case_state
  let updated_state :=
    if is_stuck then { updated0 with hints_given := updated0.hints_given + 1 }
    else updated0
  match model with
  | none => .error .generationFailure
  | some response_text =>
      let rl := response_text.toList
      if containsL teachingTag rl then
        match teachingSearch rl with
        | some body =>
            let tm := String.mk (trimL body)
            .ok { response := String.mk (trimL (teachingRemove rl)),
                  state := { updated_state with
                    teaching_moments := updated_state.teaching_moments ++ [tm] },
                  teaching_moment := some tm,
                  hint_offered := is_stuck }
        | none =>
            .ok { response := response_text, state := updated_state,
                  teaching_moment := none, hint_offered := is_stuck }
      else
        .ok { response := response_text, state := updated_state,
              teaching_moment := none, hint_offered := is_stuck }

/-! ## Debrief engine (tutor.py, generate_debrief and
generate_well_child_debrief; src/cases/models.py, DebriefData;
src/cases/router.py, get_debrief)

json.loads applied to the fence-stripped model text is kept at the oracle
boundary: a ModelReply carries the raw response text together with the
parse outcome. A parsed response is a DebriefDict whose fields are
optional, mirroring dictionary keys that may be missing; a Python key
bound to null and a missing key are both none here (the router reads the
keys only through dict.get, which treats them identically for the fields
it reads). -/

/-- One well-child domain sub-score: an integer score with free-text
feedback (models.py, DomainScore). -/
structure DomainScore where
  score : Int
  feedback : String
deriving DecidableEq, Repr

/-- The six fixed well-child domain sub-scores (models.py, WellChildScores). -/
structure WellChildScores where
  growth_interpretation : DomainScore
  milestone_assessment : DomainScore
  exam_thoroughness : DomainScore
  anticipatory_guidance : DomainScore
  immunization_knowledge : DomainScore
  communication_skill : DomainScore
deriving DecidableEq, Repr

/-- A model debrief response parsed by json.loads, as consumed by
generate_debrief and the case router: each expected key may be absent. -/
structure DebriefDict where
  summary : Option String
  strengths : Option (List String)
  areas_for_improvement : Option (List String)
  missed_items : Option (List String)
  teaching_points : Option (List String)
  follow_up_resources : Option (List String)
  well_child_scores : Option WellChildScores
deriving DecidableEq, Repr

/-- DebriefData from models.py: the structured debrief returned to the
caller of the case debrief endpoint. -/
structure DebriefData where
  summary : String
  strengths : List String
  areas_for_improvement : List String
  missed_items : List String
  teaching_points : List String
  follow_up_resources : List String
  well_child_scores : Option WellChildScores
deriving DecidableEq, Repr

/-- A debrief model response at the oracle boundary: the raw text of the
response, and the outcome of json.loads on the fence-stripped text (none
models a JSONDecodeError). -/
structure ModelReply where
  text : String
  parsed : Option DebriefDict
deriving DecidableEq, Repr

/-- Tutor.generate_well_child_debrief: return the parsed dictionary
unchanged, or on JSONDecodeError the fixed fallback dictionary whose
summary is the literal text Case complete. and whose well_child_scores is
null. -/
def generate_well_child_debrief (case_state : CaseState) (reply : ModelReply) :
    DebriefDict :=
  match reply.parsed with
  | some data => data
  | none =>
      { summary := some ("Case complete."),
        strengths := some [],
        areas_for_improvement := some [],
        missed_items := some [],
        teaching_points := some [],
        follow_up_resources := some [],
        well_child_scores := none }

/-- Tutor.generate_debrief: well-child sessions are dispatched to
generate_well_child_debrief; sick sessions return the parsed dictionary
unchanged, or on JSONDecodeError a fallback dictionary whose summary is
the raw (uncleaned) response text and whose list fields are all empty. -/
def generate_debrief (case_state : CaseState) (reply : ModelReply) : DebriefDict :=
  if case_state.visit_type = .well_child then
    generate_well_child_debrief case_state reply
  else
    match reply.parsed with
    | some data => data
    | none =>
        { summary := some reply.text,
          strengths := some [],
          areas_for_improvement := some [],
          missed_items := some [],
          teaching_points := some [],
          follow_up_resources := some [],
          well_child_scores := none }

/-- CaseResponse from models.py, restricted to the fields the verified
endpoints populate (images, a pure lookup from the framework, are out of
scope). -/
structure CaseResponse where
  message : String
  case_state : CaseState
  teaching_moment : Option String
  debrief : Option DebriefData
  hint_offered : Bool
deriving DecidableEq, Repr

/-- Result of the message endpoint: the HTTP response plus the list of
CaseState values handed to persistence.save_session during the request
(empty when no user or database is configured). These are the only
observable outputs of the handler. -/
structure SendOutcome where
  response : CaseResponse
  saved : List CaseState
deriving DecidableEq, Repr

/-- send_message from src/cases/router.py: append the learner turn, run the
tutoring engine, append the assistant turn, optionally persist, and build
the response. A Generation-Failure inside the engine propagates out of the
handler: no response is produced and no persistence write is reached, so
every observable copy of the session keeps its prior conversation. -/
def send_message (case_state : CaseState) (message : String)
    (model : Option String) (persist : Bool) : Except GenFailure SendOutcome :=
  let st1 := { case_state with
    conversation := case_state.conversation ++ [{ role := "user", content := message }] }
  match process_case_message message st1 model with
  | .error e => .error e
  | .ok r =>
      let st2 := { r.state with
        conversation := r.state.conversation ++ [{ role := "echo", content := r.response }] }
      .ok { response := { message := r.response, case_state := st2,
                          teaching_moment := r.teaching_moment,
                          debrief := none,
                          hint_offered := r.hint_offered },
            saved := if persist then [st2] else [] }

/-- get_debrief from src/cases/router.py: run the debrief engine, force the
phase to complete, and build the DebriefData handed to the caller reading
each key through dict.get with its default. The constructor call passes no
well_child_scores argument, so the pydantic field default none applies. -/
def get_debrief (case_state : CaseState) (reply : ModelReply) : CaseResponse :=
  let debrief_data := generate_debrief case_state reply
  let case_state2 := { case_state with phase := .complete }
  let debrief : DebriefData :=
    { summary := debrief_data.summary.getD ("Case complete."),
      strengths := debrief_data.strengths.getD [],
      areas_for_improvement := debrief_data.areas_for_improvement.getD [],
      missed_items := debrief_data.missed_items.getD [],
      teaching_points := debrief_data.teaching_points.getD [],
      follow_up_resources := debrief_data.follow_up_resources.getD [],
      well_child_scores := none }
  { message := debrief.summary,
    case_state := case_state2,
    teaching_moment := none,
    debrief := some debrief,
    hint_offered := false }

/-! ## The fixed phase order of each visit type (spec section 4.1)

One-step successor edges of the two tracks: the linear sick-visit order,
and the well-child partial order in which intro steps directly to either
growth_review or developmental_screening and growth_review steps to
developmental_screening. -/

/-- One-step successor edges of the sick-visit track. -/
def sickStep (p q : CasePhase) : Bool :=
  match p, q with
  | .intro, .history => true
  | .history, .exam => true
  | .exam, .assessment => true
  | .assessment, .plan => true
  | _, _ => false

/-- One-step successor edges of the well-child partial order. -/
def wcStep (p q : CasePhase) : Bool :=
  match p, q with
  | .intro, .growth_review => true
  | .intro, .developmental_screening => true
  | .growth_review, .developmental_screening => true
  | .developmental_screening, .exam => true
  | .exam, .anticipatory_guidance => true
  | .anticipatory_guidance, .immunizations => true
  | .immunizations, .parent_questions => true
  | _, _ => false

/-- One-step successor edges of the fixed order of a visit type. -/
def phaseStep : VisitType → CasePhase → CasePhase → Bool
  | .sick => sickStep
  | .well_child => wcStep

/-- Height of a phase in the fixed order of a visit type; phases foreign to
a track (never produced nor consumed by its update function) sit at 0. -/
def phaseRank : VisitType → CasePhase → Nat
  | .sick, .intro => 0
  | .sick, .history => 1
  | .sick, .exam => 2
  | .sick, .assessment => 3
  | .sick, .plan => 4
  | .sick, .debrief => 5
  | .sick, .complete => 6
  | .sick, _ => 0
  | .well_child, .intro => 0
  | .well_child, .growth_review => 1
  | .well_child, .developmental_screening => 2
  | .well_child, .exam => 3
  | .well_child, .anticipatory_guidance => 4
  | .well_child, .immunizations => 5
  | .well_child, .parent_questions => 6
  | .well_child, .debrief => 7
  | .well_child, .complete => 8
  | .well_child, _ => 0

/-- Every successor edge strictly increases the phase rank. -/
theorem phaseStep_rank (vt : VisitType) (p q : CasePhase) :
    phaseStep vt p q = true → phaseRank vt p < phaseRank vt q := by
  cases vt <;> cases p <;> cases q <;> decide

/-- No successor edge enters intro, and the only edge into growth_review
leaves intro. -/
theorem phaseStep_into (vt : VisitType) (p q : CasePhase) :
    phaseStep vt p q = true →
    q ≠ CasePhase.intro ∧ (q = CasePhase.growth_review → p = CasePhase.intro) := by
  cases vt <;> cases p <;> cases q <;> decide

/-- Each turn of either phase-update function leaves the phase unchanged or
follows exactly one successor edge of the visit type. -/
theorem update_case_phase_step (message : String) (s : CaseState) :
    (update_case_phase message s).phase = s.phase ∨
      phaseStep s.visit_type s.phase (update_case_phase message s).phase = true := by
  rcases s with ⟨p, vt, gr, hints, tms, conv⟩
  cases vt <;> cases p <;>
    simp [update_case_phase, update_well_child_phase, phaseStep, sickStep, wcStep] <;>
    split_ifs <;> simp

/-- The phase-update functions touch only phase and growth_reviewed: the
hint counter, conversation, teaching moments and visit type pass through. -/
theorem update_case_phase_fields (message : String) (s : CaseState) :
    (update_case_phase message s).hints_given = s.hints_given ∧
    (update_case_phase message s).conversation = s.conversation ∧
    (update_case_phase message s).teaching_moments = s.teaching_moments ∧
    (update_case_phase message s).visit_type = s.visit_type := by
  rcases s with ⟨p, vt, gr, hints, tms, conv⟩
  cases vt <;> cases p <;>
    simp [update_case_phase, update_well_child_phase] <;> split_ifs <;> simp

/-- The phase-update functions never clear growth_reviewed. -/
theorem update_case_phase_growth (message : String) (s : CaseState)
    (h : s.growth_reviewed = true) :
    (update_case_phase message s).growth_reviewed = true := by
  rcases s with ⟨p, vt, gr, hints, tms, conv⟩
  cases vt <;> cases p <;>
    simp_all [update_case_phase, update_well_child_phase] <;> split_ifs <;> simp

/-! ## Helper lemmas on the turn protocol -/

/-- A successful model call always yields a result, whose state carries the
pre-call phase update and hint increment and whose conversation is exactly
the input conversation: the engine itself never appends a turn. -/
theorem process_some_spec (message : String) (s : CaseState) (out : String) :
    ∃ r, process_case_message message s (some out) = Except.ok r ∧
      r.state.hints_given = s.hints_given + (if detect_stuck message s then 1 else 0) ∧
      r.hint_offered = detect_stuck message s ∧
      r.state.conversation = s.conversation ∧
      r.state.phase = (update_case_phase message s).phase ∧
      r.state.growth_reviewed = (update_case_phase message s).growth_reviewed ∧
      r.state.visit_type = s.visit_type := by
  have hf := update_case_phase_fields message s
  simp only [process_case_message]
  split
  · split
    · refine ⟨_, rfl, ?_⟩
      by_cases hst : detect_stuck message s <;> simp [hst, hf.1, hf.2.1, hf.2.2.2]
    · refine ⟨_, rfl, ?_⟩
      by_cases hst : detect_stuck message s <;> simp [hst, hf.1, hf.2.1, hf.2.2.2]
  · refine ⟨_, rfl, ?_⟩
    by_cases hst : detect_stuck message s <;> simp [hst, hf.1, hf.2.1, hf.2.2.2]

/-- Inversion form of process_some_spec for a given successful run. -/
theorem process_ok_state (message : String) (s : CaseState) (out : String)
    (r : TurnResult) (h : process_case_message message s (some out) = Except.ok r) :
    r.state.hints_given = s.hints_given + (if detect_stuck message s then 1 else 0) ∧
    r.hint_offered = detect_stuck message s ∧
    r.state.conversation = s.conversation ∧
    r.state.phase = (update_case_phase message s).phase := by
  obtain ⟨r0, h0, h1, h2, h3, h4, h5⟩ := process_some_spec message s out
  rw [h0] at h
  injection h with h
  subst h
  exact ⟨h1, h2, h3, h4⟩

/-- The session state produced by one successful turn of the message
endpoint: the learner turn is appended, the engine runs with a successful
model reply, and the assistant turn is appended. -/
def turn_state (s : CaseState) (message out : String) : CaseState :=
  match send_message s message (some out) false with
  | .ok o => o.response.case_state
  | .error _ => s

/-- Iterated turns of the message endpoint over a list of learner messages
paired with model replies. -/
def run_turns (s : CaseState) : List (String × String) → CaseState
  | [] => s
  | p :: rest => run_turns (turn_state s p.1 p.2) rest

/-- One successful turn never decreases the hint counter. -/
theorem turn_state_hints (s : CaseState) (message out : String) :
    s.hints_given ≤ (turn_state s message out).hints_given := by
  unfold turn_state send_message
  obtain ⟨r0, h0, h1, h2, h3, h4, h5⟩ :=
    process_some_spec message
      { s with conversation := s.conversation ++ [{ role := "user", content := message }] }
      out
  simp only [h0]
  simp [h1]

/-! ## Concrete sessions and messages used by the claims -/

/-- A fresh sick-visit session at the intro phase with an empty log. -/
def blankCase : CaseState :=
  { phase := .intro, visit_type := .sick, growth_reviewed := false,
    hints_given := 0, teaching_moments := [], conversation := [] }

/-- A fresh well-child session at the intro phase with an empty log. -/
def wcBlankCase : CaseState :=
  { phase := .intro, visit_type := .well_child, growth_reviewed := false,
    hints_given := 0, teaching_moments := [], conversation := [] }

/-- Session after the first scenario message of the sick-visit full path. -/
def sickS1 : CaseState := update_case_phase ("When did the cough start?") blankCase

/-- Session after the second scenario message of the sick-visit full path. -/
def sickS2 : CaseState := update_case_phase ("Let me examine the throat") sickS1

/-- Session after the third scenario message of the sick-visit full path. -/
def sickS3 : CaseState := update_case_phase ("I think this could be croup") sickS2

/-- Session after the fourth scenario message of the sick-visit full path. -/
def sickS4 : CaseState := update_case_phase ("I\x27ll give dexamethasone") sickS3

/-- The substantive clinical question of the stuck-detection boundary test. -/
def croupMsg : String := "I think it\x27s croup because of the barky cough"

/-- A substantive clinical question that merely ends in a question mark. -/
def msgC4 : String := "Does she have a barking cough?"

/-! ## Claims -/

/-- C1: for every case session and every learner message, the phase-update
step of either track leaves the phase where it is or follows exactly one
successor edge of the visit type's fixed order, and the phase rank never
drops; in particular the phase never regresses and advances by at most one
step per turn, whatever trigger words the message contains. -/
theorem c1_phase_monotone_one_step (message : String) (s : CaseState) :
    ((update_case_phase message s).phase = s.phase ∨
      phaseStep s.visit_type s.phase (update_case_phase message s).phase = true) ∧
    phaseRank s.visit_type s.phase ≤
      phaseRank s.visit_type (update_case_phase message s).phase := by
  refine ⟨update_case_phase_step message s, ?_⟩
  rcases update_case_phase_step message s with h | h
  · rw [h]
  · exact Nat.le_of_lt (phaseStep_rank _ _ _ h)

/-- C4 evaluation: the question-mark entry of the stuck vocabulary is
matched as a plain substring, so a 30-character substantive clinical
question ending in a question mark is classified stuck by the phrase rule
alone, although the message is not the bare token and no other vocabulary
entry occurs in it; this contradicts the inline comment Just a question
mark next to the vocabulary entry. -/
theorem c4_question_mark_substring :
    phraseRule (msgNorm msgC4) = true ∧
    (stuck_phrases.erase ("?")).any (fun p => containsL p.toList (msgNorm msgC4)) = false ∧
    msgNorm msgC4 ≠ ("?").toList ∧
    lengthRule (msgNorm msgC4) = false ∧
    detect_stuck msgC4 blankCase = true := by decide

/-- C5 counterexample: the quoted boundary message has 45 characters, not
46 as the claim states. -/
theorem c5_counterexample : croupMsg.length = 45 ∧ ¬ croupMsg.length = 46 := by decide

/-- C5 amended: the length rule fires exactly on trimmed messages shorter
than 10 characters; a 10-character message is not flagged by it, a
9-character message is, the bare question mark is, and the 45-character
croup message is not flagged by the phrase rule. -/
theorem c5_stuck_boundaries :
    (∀ l : List Char, lengthRule l = true ↔ l.length < 10) ∧
    (msgNorm ("abcdefghij")).length = 10 ∧
    lengthRule (msgNorm ("abcdefghij")) = false ∧
    (msgNorm ("abcdefghi")).length = 9 ∧
    lengthRule (msgNorm ("abcdefghi")) = true ∧
    lengthRule (msgNorm ("?")) = true ∧
    detect_stuck ("?") blankCase = true ∧
    croupMsg.length = 45 ∧
    phraseRule (msgNorm croupMsg) = false := by
  refine ⟨fun l => by simp [lengthRule], ?_⟩
  decide

/-- C6: starting a sick-visit session at intro, the four scenario messages
drive the phase through history, exam, assessment and plan in order, with
each phase checked after the corresponding message and no intermediate
regression. -/
theorem c6_sick_full_path :
    sickS1.phase = CasePhase.history ∧
    sickS2.phase = CasePhase.exam ∧
    sickS3.phase = CasePhase.assessment ∧
    sickS4.phase = CasePhase.plan := by decide

/-- A phase-update step from outside intro and growth_review can reach
neither intro nor growth_review. -/
theorem update_no_return (message : String) (s : CaseState)
    (h1 : s.phase ≠ CasePhase.intro) (h2 : s.phase ≠ CasePhase.growth_review) :
    (update_case_phase message s).phase ≠ CasePhase.intro ∧
    (update_case_phase message s).phase ≠ CasePhase.growth_review := by
  rcases update_case_phase_step message s with h | h
  · rw [h]; exact ⟨h1, h2⟩
  · have hi := phaseStep_into _ _ _ h
    exact ⟨hi.1, fun hq => h1 (hi.2 hq)⟩

/-- Iterated phase updates from outside intro and growth_review never
reach growth_review. -/
theorem fold_no_return (msgs : List String) (s : CaseState)
    (h1 : s.phase ≠ CasePhase.intro) (h2 : s.phase ≠ CasePhase.growth_review) :
    (msgs.foldl (fun a m => update_case_phase m a) s).phase ≠ CasePhase.growth_review := by
  induction msgs generalizing s with
  | nil => exact h2
  | cons m rest ih =>
      simp only [List.foldl]
      obtain ⟨g1, g2⟩ := update_no_return m s h1 h2
      exact ih _ g1 g2

/-- Session after the first scenario message of the well-child path. -/
def wcS1 : CaseState := update_case_phase ("What\x27s her weight percentile?") wcBlankCase

/-- Session after the second scenario message of the well-child path. -/
def wcS2 : CaseState := update_case_phase ("Is she babbling yet?") wcS1

/-- C7: from intro the growth question moves a well-child session to
growth_review; the babbling question then moves it to
developmental_screening and sets growth_reviewed; the update functions
never clear growth_reviewed; and from developmental_screening no sequence
of messages ever returns the phase to growth_review. -/
theorem c7_well_child_growth_first :
    wcS1.phase = CasePhase.growth_review ∧
    wcS2.phase = CasePhase.developmental_screening ∧
    wcS2.growth_reviewed = true ∧
    (∀ (message : String) (s : CaseState), s.growth_reviewed = true →
      (update_case_phase message s).growth_reviewed = true) ∧
    (∀ (msgs : List String) (s : CaseState), s.phase = CasePhase.developmental_screening →
      (msgs.foldl (fun a m => update_case_phase m a) s).phase ≠ CasePhase.growth_review) := by
  refine ⟨by decide, by decide, by decide, update_case_phase_growth, ?_⟩
  intro msgs s hs
  exact fold_no_return msgs s (by simp [hs]) (by simp [hs])

/-- C7 witness: the permanence parts of c7_well_child_growth_first applied
to the concrete session reached by the scenario. -/
theorem c7_witness :
    (update_case_phase ("Anything else today?") wcS2).growth_reviewed = true ∧
    ((["Let me check her hips", "Car seat safety next"].foldl
        (fun a m => update_case_phase m a) wcS2).phase ≠ CasePhase.growth_review) :=
  ⟨(c7_well_child_growth_first.2.2.2.1) ("Anything else today?") wcS2 (by decide),
   (c7_well_child_growth_first.2.2.2.2)
     (["Let me check her hips", "Car seat safety next"]) wcS2 (by decide)⟩

/-- C8: when the model call fails, the message endpoint propagates a
Generation-Failure: it produces neither a response nor a persistence
write, so every observable copy of the session keeps the conversation it
had before the turn; moreover the tutoring engine itself never appends to
the conversation even on success (both appends belong to the router),
while the phase and hint mutations computed before the call are carried
only inside a successful result. -/
theorem c8_generation_failure (s : CaseState) (message : String) (persist : Bool) :
    send_message s message none persist = Except.error GenFailure.generationFailure ∧
    ∀ (out : String) (r : TurnResult),
      process_case_message message s (some out) = Except.ok r →
      r.state.conversation = s.conversation := by
  refine ⟨rfl, ?_⟩
  intro out r h
  exact (process_ok_state message s out r h).2.2.1

/-- A successful engine result at a plain greeting, for the C8 witness. -/
def okTR : TurnResult :=
  { response := "Fine.", state := blankCase, teaching_moment := none, hint_offered := false }

/-- C8 witness: the failure equation and the engine conversation-identity
at a concrete session, message and model reply. -/
theorem c8_witness :
    send_message blankCase ("hello there") none true =
      Except.error GenFailure.generationFailure ∧
    okTR.state.conversation = blankCase.conversation :=
  ⟨(c8_generation_failure blankCase ("hello there") true).1,
   (c8_generation_failure blankCase ("hello there") true).2 ("Fine.") okTR (by rfl)⟩

/-- The hint counter never decreases over iterated turns. -/
theorem run_turns_hints (turns : List (String × String)) (s : CaseState) :
    s.hints_given ≤ (run_turns s turns).hints_given := by
  induction turns generalizing s with
  | nil => simp [run_turns]
  | cons p rest ih =>
      simp only [run_turns]
      exact le_trans (turn_state_hints s p.1 p.2) (ih _)

/-- C9: on every successful turn the hint counter grows by exactly 1 when
stuck detection returns true and is unchanged otherwise, the returned
stuck flag equals the detection result, and over any sequence of endpoint
turns hints_given is non-decreasing. -/
theorem c9_hint_monotonicity (message : String) (s : CaseState) (out : String)
    (r : TurnResult) :
    (process_case_message message s (some out) = Except.ok r →
      r.state.hints_given = s.hints_given + (if detect_stuck message s then 1 else 0) ∧
      r.hint_offered = detect_stuck message s) ∧
    ∀ (turns : List (String × String)), s.hints_given ≤ (run_turns s turns).hints_given := by
  constructor
  · intro h
    obtain ⟨h1, h2, _, _⟩ := process_ok_state message s out r h
    exact ⟨h1, h2⟩
  · intro turns
    exact run_turns_hints turns s

/-- The engine result for the stuck message idk, for the C9 witness. -/
def hintTR : TurnResult :=
  { response := "Take a breath.", state := { blankCase with hints_given := 1 },
    teaching_moment := none, hint_offered := true }

/-- C9 witness: the per-turn hint equation of c9_hint_monotonicity at the
three-character stuck message idk. -/
theorem c9_witness :
    hintTR.state.hints_given =
      blankCase.hints_given + (if detect_stuck ("idk") blankCase then 1 else 0) ∧
    hintTR.hint_offered = detect_stuck ("idk") blankCase :=
  (c9_hint_monotonicity ("idk") blankCase ("Take a breath.") hintTR).1 (by rfl)

/-- C10: the stuck vocabulary contains um and uh matched as plain
substrings, so every message whose normalised text contains either letter
sequence anywhere is classified stuck, whatever its length or substance,
and each such successful turn increments hints_given by exactly 1 and
reports the stuck flag. -/
theorem c10_um_uh_substring (message : String) (s : CaseState)
    (h : containsL ("um").toList (msgNorm message) = true ∨
         containsL ("uh").toList (msgNorm message) = true) :
    ("um" ∈ stuck_phrases ∧ "uh" ∈ stuck_phrases) ∧
    detect_stuck message s = true ∧
    ∀ (out : String) (r : TurnResult),
      process_case_message message s (some out) = Except.ok r →
      r.state.hints_given = s.hints_given + 1 ∧ r.hint_offered = true := by
  have hp : phraseRule (msgNorm message) = true := by
    rcases h with h | h
    · exact List.any_eq_true.mpr ⟨"um", by decide, h⟩
    · exact List.any_eq_true.mpr ⟨"uh", by decide, h⟩
  have hd : detect_stuck message s = true := by
    simp [detect_stuck, hp]
  refine ⟨⟨by decide, by decide⟩, hd, ?_⟩
  intro out r hr
  obtain ⟨h1, h2, _, _⟩ := process_ok_state message s out r hr
  rw [hd] at h1 h2
  simpa using ⟨h1, h2⟩

/-- The engine result for the circumference message, for the C10 witness. -/
def umTR : TurnResult :=
  { response := "Sure.", state := { blankCase with hints_given := 1 },
    teaching_moment := none, hint_offered := true }

/-- C10 witness: a 37-character substantive request containing the letters
um inside the word circumference is classified stuck and increments the
hint counter. -/
theorem c10_witness :
    detect_stuck ("Let me measure her head circumference") blankCase = true ∧
    umTR.state.hints_given = blankCase.hints_given + 1 ∧
    umTR.hint_offered = true :=
  have h := c10_um_uh_substring ("Let me measure her head circumference") blankCase
    (Or.inl (by decide))
  ⟨h.2.1, (h.2.2 ("Sure.") umTR (by rfl)).1, (h.2.2 ("Sure.") umTR (by rfl)).2⟩

/-- A completed well-child session about to be debriefed. -/
def wcCase : CaseState :=
  { phase := .parent_questions, visit_type := .well_child, growth_reviewed := true,
    hints_given := 0, teaching_moments := [], conversation := [] }

/-- A model debrief reply that is plain prose with no parseable JSON. -/
def proseReply : ModelReply :=
  { text := "The learner covered growth and milestones thoughtfully.", parsed := none }

/-- The six domain sub-scores of a fully parsed well-child debrief reply. -/
def scoresC2 : WellChildScores :=
  { growth_interpretation := { score := 8, feedback := "Interpreted the curve well." },
    milestone_assessment := { score := 7, feedback := "Covered most domains." },
    exam_thoroughness := { score := 9, feedback := "Thorough exam." },
    anticipatory_guidance := { score := 6, feedback := "Hit the key topics." },
    immunization_knowledge := { score := 8, feedback := "Knew the schedule." },
    communication_skill := { score := 9, feedback := "Warm and clear." } }

/-- A model debrief reply that parses as exactly the JSON shape the
well-child debrief prompt requests, six domain sub-scores included. -/
def parsedReply : ModelReply :=
  { text := "raw json text",
    parsed := some
      { summary := some ("Strong well-child visit."),
        strengths := some ["growth review"],
        areas_for_improvement := some [],
        missed_items := some [],
        teaching_points := some ["trust the curve"],
        follow_up_resources := some [],
        well_child_scores := some scoresC2 } }

/-- C2 evaluation: the debrief engine returns the parsed dictionary with
its six domain sub-scores, each between 0 and 10, but the case debrief
endpoint builds the DebriefData passed to the caller without the
well_child_scores argument, so the caller receives none in that field. -/
theorem c2_scores_dropped :
    generate_well_child_debrief wcCase parsedReply =
      { summary := some ("Strong well-child visit."),
        strengths := some ["growth review"],
        areas_for_improvement := some [],
        missed_items := some [],
        teaching_points := some ["trust the curve"],
        follow_up_resources := some [],
        well_child_scores := some scoresC2 } ∧
    (generate_debrief wcCase parsedReply).well_child_scores = some scoresC2 ∧
    (0 ≤ scoresC2.growth_interpretation.score ∧ scoresC2.growth_interpretation.score ≤ 10) ∧
    (get_debrief wcCase parsedReply).debrief =
      some { summary := "Strong well-child visit.",
             strengths := ["growth review"],
             areas_for_improvement := [],
             missed_items := [],
             teaching_points := ["trust the curve"],
             follow_up_resources := [],
             well_child_scores := none } := by decide

/-- C3 counterexample: for a well-child session whose debrief reply is
unparseable prose, the returned summary is the fixed text Case complete.,
not the raw model text. -/
theorem c3_counterexample :
    (generate_debrief wcCase proseReply).summary = some ("Case complete.") ∧
    (generate_debrief wcCase proseReply).strengths = some [] ∧
    proseReply.text ≠ "Case complete." := by decide

/-- C3 amended: on an unparseable debrief reply the engine degrades
gracefully, but the fallback summary depends on the visit type: sick
sessions receive the raw model text with every list field empty (at the
engine and at the endpoint), while well-child sessions receive the fixed
summary Case complete. with every list field empty and no scores. -/
theorem c3_graceful_fallback (s : CaseState) (reply : ModelReply)
    (h : reply.parsed = none) :
    (s.visit_type = VisitType.sick →
      generate_debrief s reply =
        { summary := some reply.text, strengths := some [],
          areas_for_improvement := some [], missed_items := some [],
          teaching_points := some [], follow_up_resources := some [],
          well_child_scores := none } ∧
      (get_debrief s reply).debrief =
        some { summary := reply.text, strengths := [], areas_for_improvement := [],
               missed_items := [], teaching_points := [], follow_up_resources := [],
               well_child_scores := none }) ∧
    (s.visit_type = VisitType.well_child →
      generate_debrief s reply =
        { summary := some ("Case complete."), strengths := some [],
          areas_for_improvement := some [], missed_items := some [],
          teaching_points := some [], follow_up_resources := some [],
          well_child_scores := none }) := by
  constructor
  · intro hv
    constructor
    · simp [generate_debrief, hv, h]
    · simp [get_debrief, generate_debrief, hv, h]
  · intro hv
    simp [generate_debrief, generate_well_child_debrief, hv, h]

/-- C3 witness: the sick-session fallback of c3_graceful_fallback at a
concrete session and prose reply. -/
theorem c3_witness :
    (generate_debrief blankCase proseReply).summary = some (proseReply.text) ∧
    (generate_debrief blankCase proseReply).strengths = some [] := by
  have h := (c3_graceful_fallback blankCase proseReply (by rfl)).1 (by rfl)
  exact ⟨by rw [h.1], by rw [h.1]⟩

end Echo
